import Mathlib

/-!
Verification development for the lead-generation scoring engine.

Shallow embedding of the signal-to-property matching and temporal
intent-scoring core: signal decay (`signal_decay.py`), baseline and
trade scorers (`baseline_scorer.py`, `trade_scorers.py`,
`scoring_service.py`), score calibration (`score_calibration.py`),
address normalization (`address_normalization.py`) and property
matching (`property_matching.py`).

Dates are modelled as integer day numbers (difference of two dates in
days is integer subtraction, and ISO-string comparison of valid dates
agrees with the numeric order).  Python floats are modelled as real
numbers for the decay/scoring pipeline and as rationals for the
matcher and calibration arithmetic.  Address strings are modelled as
lists of Unicode codepoints.
-/

set_option maxHeartbeats 1000000

namespace LeadGen

/-! ## signal_decay.py -/

/-- The `signal_date` argument of `calculate_signal_strength`:
`None`, a parsed date (day number), or a string that fails
`datetime.strptime` parsing. -/
inductive DateArg where
  | null : DateArg
  | valid : ℤ → DateArg
  | malformed : DateArg
deriving DecidableEq

/-- `DEFAULT_HALF_LIFE_DAYS` from `signal_decay.py`. -/
def DEFAULT_HALF_LIFE_DAYS : ℤ := 30

/-- The core of `calculate_signal_strength` once `days_ago` has been
computed: future dates and day zero return `base_score` unchanged,
otherwise `max(0.0, min(base_score, base_score * 2 ** (-days_ago / half_life_days)))`. -/
noncomputable def decayValue (base : ℝ) (daysAgo : ℤ) (halfLifeDays : ℤ) : ℝ :=
  if daysAgo < 0 then base
  else if daysAgo = 0 then base
  else max 0 (min base (base * (2 : ℝ) ^ (-(daysAgo : ℝ) / (halfLifeDays : ℝ))))

/-- `calculate_signal_strength` from `signal_decay.py`: a `None` date
and an unparsable string date both return `0.0`; otherwise exponential
half-life decay of `base_score` over `reference_date - signal_date` days. -/
noncomputable def calculate_signal_strength (base : ℝ) (signalDate : DateArg)
    (halfLifeDays : ℤ) (referenceDate : ℤ) : ℝ :=
  match signalDate with
  | .null => 0
  | .malformed => 0
  | .valid d => decayValue base (referenceDate - d) halfLifeDays

/-! ## Rounding

Python's `round(x, n)` modelled as rounding `x * 10^n` to the nearest
integer (Python uses banker's rounding at exact ties; none of the
verified statements depend on tie behaviour). -/

/-- `round(x, 4)` from Python, used by the scorers and calibration. -/
noncomputable def pyRound4 (x : ℝ) : ℝ := ((round (x * 10000) : ℤ) : ℝ) / 10000

/-- `round(x, 4)` over rationals (calibration arithmetic). -/
def pyRound4Q (x : ℚ) : ℚ := ((round (x * 10000) : ℤ) : ℚ) / 10000

/-- `round(x, 2)` over rationals (calibration percentage). -/
def pyRound2Q (x : ℚ) : ℚ := ((round (x * 100) : ℤ) : ℚ) / 100

/-! ## score_calibration.py -/

/-- One bucket row of the `calibration_data` input of
`calculate_calibration_adjustments` (expected and observed conversion
rates, as percentages). -/
structure BucketStat where
  expected_rate : ℚ
  conversion_rate : ℚ
deriving DecidableEq

/-- One output entry of `calculate_calibration_adjustments`. -/
structure Adjustment where
  expected_rate : ℚ
  actual_rate : ℚ
  adjustment_factor : ℚ
  adjustment : ℚ
deriving DecidableEq

/-- The per-bucket loop body of
`ScoreCalibrationEngine.calculate_calibration_adjustments`
(lines 49-66 of `score_calibration.py`): ratio of observed to expected
rate, clamped to `[0.5, 2.0]`, rounded to 4 decimals; buckets with
non-positive expected rate are skipped. -/
def calculate_calibration_adjustments (data : List (String × BucketStat)) :
    List (String × Adjustment) :=
  data.filterMap fun nb =>
    if 0 < nb.2.expected_rate then
      some (nb.1,
        { expected_rate := nb.2.expected_rate
          actual_rate := nb.2.conversion_rate
          adjustment_factor := pyRound4Q (max (1/2) (min 2
            (if (0 : ℚ) < nb.2.expected_rate then
              nb.2.conversion_rate / nb.2.expected_rate else 1)))
          adjustment := pyRound2Q ((max (1/2) (min 2
            (if (0 : ℚ) < nb.2.expected_rate then
              nb.2.conversion_rate / nb.2.expected_rate else 1)) - 1) * 100) })
    else none

/-- A parsed calibration bucket as consumed by `apply_calibration`:
the two floats parsed from the range name `"min-max"`, and the entry's
`adjustment_factor`. -/
structure CalBucket where
  lo : ℚ
  hi : ℚ
  factor : ℚ
deriving DecidableEq

/-- The bucket-search loop of `apply_calibration`: the first bucket
with `min_score <= base_score < max_score` is applied (the product is
clamped to `[0,1]`); if none matches the score is returned unchanged. -/
def applyCalibrationLoop (base : ℚ) : List CalBucket → ℚ
  | [] => base
  | b :: rest =>
    if b.lo ≤ base ∧ base < b.hi then max 0 (min 1 (base * b.factor))
    else applyCalibrationLoop base rest

/-- `ScoreCalibrationEngine.apply_calibration` with pre-computed
adjustments: empty adjustments return the score unchanged, otherwise
the bucket loop runs. -/
def apply_calibration (base : ℚ) (adjs : List CalBucket) : ℚ :=
  if adjs = [] then base else applyCalibrationLoop base adjs

/-- The five standard score ranges of `analyze_score_accuracy`
(`performance_analytics.py`), as parsed `(min, max)` pairs. -/
def standardRanges : List (ℚ × ℚ) :=
  [(0, 3/10), (3/10, 1/2), (1/2, 7/10), (7/10, 9/10), (9/10, 1)]

/-! ## Data model

Rows of the `Property`, `CodeViolation`, `ServiceRequest` and
`StormEvent` tables, restricted to the columns the scoring/matching
core reads.  String-valued columns are lists of codepoints. -/

/-- Codepoints of a string literal. -/
def strChars (s : String) : List Nat := s.data.map Char.toNat

/-- `models/property.py`: the columns read by the core. -/
structure Property where
  prop_id : ℤ
  situs_address : Option (List Nat)
  situs_zip : Option (List Nat)
  market_value : Option ℚ
  first_improvement_year : Option ℤ
  centroid_x : Option ℚ
  centroid_y : Option ℚ
deriving DecidableEq

/-- `models/code_violation.py`: the columns read by the core. -/
structure Violation where
  prop_id : ℤ
  violation_date : Option ℤ
  violation_type : List Nat
  violation_description : List Nat
deriving DecidableEq

/-- `models/service_request.py`: the columns read by the core. -/
structure ServiceRequest where
  prop_id : ℤ
  requested_date : Option ℤ
  request_type : List Nat
deriving DecidableEq

/-- `models/storm_event.py`: the columns read by the core. -/
structure StormEvent where
  zip_code : Option (List Nat)
  event_type : List Nat
  event_date : ℤ
  magnitude : Option ℚ
deriving DecidableEq

/-- The database session plus the ambient clock
(`date.today()` / `datetime.now()`), which the scorers read. -/
structure DB where
  properties : List Property
  violations : List Violation
  requests : List ServiceRequest
  storms : List StormEvent
  today : ℤ
  currentYear : ℤ
  currentMonth : ℤ

/-- `session.get(Property, prop_id)`. -/
def findProp (db : DB) (pid : ℤ) : Option Property :=
  db.properties.find? (fun p => p.prop_id == pid)

/-- `select(CodeViolation).where(CodeViolation.prop_id == prop_id)`. -/
def violationsOf (db : DB) (pid : ℤ) : List Violation :=
  db.violations.filter (fun v => v.prop_id == pid)

/-- `select(ServiceRequest).where(ServiceRequest.prop_id == prop_id)`. -/
def requestsOf (db : DB) (pid : ℤ) : List ServiceRequest :=
  db.requests.filter (fun r => r.prop_id == pid)

/-- Python truthiness of an optional string (both `None` and `""` are
falsy). -/
def pyTruthyStr (o : Option (List Nat)) : Bool :=
  match o with
  | none => false
  | some s => !s.isEmpty

/-- Python truthiness of an optional integer (`None` and `0` falsy). -/
def pyTruthyInt (o : Option ℤ) : Bool :=
  match o with
  | none => false
  | some n => n != 0

/-- Python truthiness of an optional float (`None` and `0.0` falsy). -/
def pyTruthyQ (o : Option ℚ) : Bool :=
  match o with
  | none => false
  | some q => q != 0

/-- ASCII lowercasing of one codepoint (`str.lower`). -/
def lowerCp (c : Nat) : Nat := if 65 ≤ c ∧ c ≤ 90 then c + 32 else c

/-- `str.lower()` over codepoints. -/
def toLowerCp (s : List Nat) : List Nat := s.map lowerCp

/-- Contiguous-sublist test (substring search). -/
def containsSeq (pat : List Nat) : List Nat → Bool
  | [] => pat.isEmpty
  | c :: rest => pat.isPrefixOf (c :: rest) || containsSeq pat rest

/-- SQL `column.ilike("%pat%")`: case-insensitive containment. -/
def ilikeContains (s pat : List Nat) : Bool :=
  containsSeq (toLowerCp pat) (toLowerCp s)

/-- Python `max` over a list of floats (`max(... or 0 ...)` in the
storm-magnitude computation); only applied to non-empty lists. -/
def pyMaxQ : List ℚ → ℚ
  | [] => 0
  | x :: xs => xs.foldl max x

/-- Maximum of a list of dates, `none` on the empty list
(`max(v.violation_date for v in violation_list)`). -/
def listMaxInt : List ℤ → Option ℤ
  | [] => none
  | x :: xs =>
    match listMaxInt xs with
    | none => some x
    | some m => some (max x m)

/-! ## property_lifecycle.py -/

/-- `calculate_maintenance_urgency`: age-banded urgency plus an
optional boost for years since last improvement. -/
noncomputable def calculate_maintenance_urgency (propertyAge : Option ℤ)
    (yearsSinceLastImprovement : Option ℤ) : ℝ :=
  match propertyAge with
  | none => 0
  | some a =>
    let urgency : ℝ :=
      if 15 ≤ a ∧ a ≤ 25 then 0.8
      else if 25 < a ∧ a ≤ 35 then 0.6
      else if 35 < a then 0.7
      else if 10 ≤ a ∧ a < 15 then 0.4
      else 0.2
    match yearsSinceLastImprovement with
    | none => urgency
    | some y =>
      if 15 < y then min 1 (urgency + 0.2)
      else if 10 < y then min 1 (urgency + 0.1)
      else urgency

/-- `get_trade_specific_lifecycle_score`: per-trade age windows, with
fallback to the generic urgency curve for unrecognized trades. -/
noncomputable def get_trade_specific_lifecycle_score (propertyAge : Option ℤ)
    (trade : String) : ℝ :=
  match propertyAge with
  | none => 0
  | some a =>
    let t := trade.toLower
    if t = "roofing" then
      if 15 ≤ a ∧ a ≤ 25 then 0.9
      else if (10 ≤ a ∧ a < 15) ∨ (25 < a ∧ a ≤ 30) then 0.6
      else 0.3
    else if t = "hvac" then
      if 10 ≤ a ∧ a ≤ 20 then 0.9
      else if (5 ≤ a ∧ a < 10) ∨ (20 < a ∧ a ≤ 25) then 0.6
      else 0.3
    else if t = "siding" then
      if 20 ≤ a ∧ a ≤ 30 then 0.9
      else if (15 ≤ a ∧ a < 20) ∨ (30 < a ∧ a ≤ 35) then 0.6
      else 0.3
    else if t = "electrical" then
      if 20 ≤ a ∧ a ≤ 30 then 0.9
      else if (15 ≤ a ∧ a < 20) ∨ (30 < a ∧ a ≤ 35) then 0.6
      else 0.3
    else calculate_maintenance_urgency (some a) none

/-! ## interaction_features.py and temporal_features.py
(the feature keys the baseline scorer reads) -/

/-- Decayed strength of a signal dated `d`, with the default 30-day
half-life and `date.today()` as reference. -/
noncomputable def strengthAt (db : DB) (base : ℝ) (d : ℤ) : ℝ :=
  calculate_signal_strength base (.valid d) DEFAULT_HALF_LIFE_DAYS db.today

/-- Storms in a ZIP within the trailing 90 days
(`calculate_interaction_features`). -/
def stormCount90 (db : DB) (zip : List Nat) : Nat :=
  (db.storms.filter
    (fun s => s.zip_code == some zip && decide (db.today - 90 ≤ s.event_date))).length

/-- Dated violations within the trailing 30 days
(`calculate_interaction_features`). -/
def recentViolationCount (db : DB) (pid : ℤ) : Nat :=
  ((violationsOf db pid).filter (fun v =>
    match v.violation_date with
    | some d => decide (db.today - 30 ≤ d)
    | none => false)).length

/-- Dated 311 requests within the trailing 30 days. -/
def recentRequestCount (db : DB) (pid : ℤ) : Nat :=
  ((requestsOf db pid).filter (fun r =>
    match r.requested_date with
    | some d => decide (db.today - 30 ≤ d)
    | none => false)).length

/-- `calculate_interaction_score` from `interaction_features.py`:
`0.1` per signal plus the fixed weights of the high-value signal
combinations; an absent property yields an empty feature set and
score `0`. -/
noncomputable def calculate_interaction_score (db : DB) (pid : ℤ) : ℝ :=
  match findProp db pid with
  | none => 0
  | some p =>
    let vc := (violationsOf db pid).length
    let rc := (requestsOf db pid).length
    let stormFlag : Bool :=
      0 < vc && pyTruthyStr p.situs_zip &&
        decide (0 < stormCount90 db (p.situs_zip.getD []))
    ((vc + rc : ℕ) : ℝ) * 0.1 +
      (if stormFlag then 1.5 else 0) +
      (if 0 < vc ∧ 0 < rc then 1.3 else 0) +
      (if 2 ≤ vc then 1.2 else 0) +
      (if 2 ≤ recentViolationCount db pid + recentRequestCount db pid then 1.4 else 0)

/-- `has_recent_violation` from `calculate_temporal_features`: the
most recent dated violation is at most 30 days before the reference
date. -/
def has_recent_violation (db : DB) (pid : ℤ) : Bool :=
  match listMaxInt ((violationsOf db pid).filterMap (fun v => v.violation_date)) with
  | none => false
  | some m => db.today - m ≤ 30

/-- `has_recent_request` from `calculate_temporal_features`. -/
def has_recent_request (db : DB) (pid : ℤ) : Bool :=
  match listMaxInt ((requestsOf db pid).filterMap (fun r => r.requested_date)) with
  | none => false
  | some m => db.today - m ≤ 30

/-- `property_age` as it reaches the baseline scorer through the merged
feature dictionary (`calculate_interaction_features` sets it exactly
when `first_improvement_year` is truthy). -/
def propertyAgeOf (db : DB) (p : Property) : Option ℤ :=
  match p.first_improvement_year with
  | some y => if y ≠ 0 then some (db.currentYear - y) else none
  | none => none

/-! ## baseline_scorer.py -/

/-- Sum of decayed strengths over the dated violations of a property
(the violation loop of `calculate_baseline_score`). -/
noncomputable def sumViolationStrength (db : DB) (pid : ℤ) : ℝ :=
  (violationsOf db pid).foldl
    (fun s v =>
      match v.violation_date with
      | some d => s + strengthAt db 1 d
      | none => s) 0

/-- Sum of decayed strengths over the dated 311 requests. -/
noncomputable def sumRequestStrength (db : DB) (pid : ℤ) : ℝ :=
  (requestsOf db pid).foldl
    (fun s r =>
      match r.requested_date with
      | some d => s + strengthAt db 1 d
      | none => s) 0

/-- The `violation_score` component: decayed sum normalized by 3 and
capped at 1, computed only when the property has violations. -/
noncomputable def violation_score (db : DB) (pid : ℤ) : ℝ :=
  if 0 < (violationsOf db pid).length then
    min 1 (sumViolationStrength db pid / 3)
  else 0

/-- The `request_score` component. -/
noncomputable def request_score (db : DB) (pid : ℤ) : ℝ :=
  if 0 < (requestsOf db pid).length then
    min 1 (sumRequestStrength db pid / 3)
  else 0

/-- The `lifecycle_score` component: trade window if a truthy trade was
passed, generic urgency otherwise; `0` when the property age is
unknown. -/
noncomputable def lifecycle_score_of (db : DB) (p : Property)
    (trade : Option String) : ℝ :=
  match propertyAgeOf db p with
  | some a =>
    match trade with
    | some t =>
      if t ≠ "" then get_trade_specific_lifecycle_score (some a) t
      else calculate_maintenance_urgency (some a) none
    | none => calculate_maintenance_urgency (some a) none
  | none => 0

/-- The `interaction_score` component: interaction score normalized by
5 and capped at 1. -/
noncomputable def interaction_score_of (db : DB) (pid : ℤ) : ℝ :=
  min 1 (calculate_interaction_score db pid / 5)

/-- Result dictionary of `calculate_baseline_score`: the rounded score
plus the component breakdown; `found = false` models the
`{"score": 0.0, "components": {}}` result for a missing property. -/
structure BaselineResult where
  score : ℝ
  violation_score : ℝ
  request_score : ℝ
  lifecycle_score : ℝ
  interaction_score : ℝ
  recency_boost : ℝ
  found : Bool

/-- `calculate_baseline_score` from `baseline_scorer.py`. -/
noncomputable def calculate_baseline_score (db : DB) (pid : ℤ)
    (trade : Option String) : BaselineResult :=
  match findProp db pid with
  | none => ⟨0, 0, 0, 0, 0, 0, false⟩
  | some p =>
    let vS := violation_score db pid
    let rS := request_score db pid
    let lS := lifecycle_score_of db p trade
    let score2 : ℝ :=
      match propertyAgeOf db p with
      | some _ => 0 + vS * 0.3 + rS * 0.25 + lS * 0.15
      | none => 0 + vS * 0.3 + rS * 0.25
    let iS := interaction_score_of db pid
    let score3 := score2 + iS * 0.1
    let recent := has_recent_violation db pid || has_recent_request db pid
    let score4 := if recent then min 1 (score3 + 0.1) else score3
    ⟨pyRound4 (min 1 (max 0 score4)), vS, rS, lS, iS,
      (if recent then 0.1 else 0), true⟩

/-! ## trade_scorers.py -/

/-- One boost step of a trade scorer's signal loop:
`score = min(1.0, score + strength)` for a dated signal, no change
otherwise. -/
noncomputable def boostStep (db : DB) (s : ℝ) (d : Option ℤ) : ℝ :=
  match d with
  | some dd => min 1 (s + strengthAt db 0.3 dd)
  | none => s

/-- `calculate_roofing_score`: baseline (trade `"roofing"`), then
roof-violation boosts, hail boost, and the 15-25 year age-window
boost; a missing property returns the baseline result's score. -/
noncomputable def calculate_roofing_score (db : DB) (pid : ℤ) : ℝ :=
  let base := calculate_baseline_score db pid (some "roofing")
  match findProp db pid with
  | none => base.score
  | some p =>
    let roofViolationList := (violationsOf db pid).filter (fun v =>
      ilikeContains v.violation_type (strChars "roof") ||
        ilikeContains v.violation_description (strChars "roof"))
    let s1 := roofViolationList.foldl
      (fun s v => boostStep db s v.violation_date) base.score
    let s2 :=
      if pyTruthyStr p.situs_zip then
        let stormList := db.storms.filter (fun st =>
          st.zip_code == p.situs_zip &&
            ilikeContains st.event_type (strChars "hail") &&
            decide (db.today - 90 ≤ st.event_date))
        if !stormList.isEmpty then
          let maxMagnitude := pyMaxQ (stormList.map (fun st => st.magnitude.getD 0))
          if 1 < maxMagnitude then min 1 (s1 + 0.4)
          else if 1/2 < maxMagnitude then min 1 (s1 + 0.2)
          else s1
        else s1
      else s1
    let s3 :=
      if pyTruthyInt p.first_improvement_year then
        let age := db.currentYear - p.first_improvement_year.getD 0
        if 15 ≤ age ∧ age ≤ 25 then min 1 (s2 + 0.2) else s2
      else s2
    pyRound4 (min 1 (max 0 s3))

/-- The seasonal boost of `calculate_hvac_score` (months 4, 5, 10 and
11 add `+0.1`, capped at 1).  It executes after the function-local
`datetime` import has bound the name, so it is reachable on every
non-raising path. -/
noncomputable def hvacSeasonal (db : DB) (s : ℝ) : ℝ :=
  if db.currentMonth = 4 ∨ db.currentMonth = 5 ∨
      db.currentMonth = 10 ∨ db.currentMonth = 11 then
    min 1 (s + 0.1)
  else s

/-- The score `calculate_hvac_score` returns on its non-raising paths:
baseline (trade `"hvac"`), HVAC-request boosts, the seasonal boost,
final clamp and round.  The 10-20 year age-window boost never appears
here: the only branch that would apply it raises instead (see
`calculate_hvac_score`). -/
noncomputable def hvacReturnScore (db : DB) (pid : ℤ) : ℝ :=
  let base := calculate_baseline_score db pid (some "hvac")
  let hvacRequestList := (requestsOf db pid).filter (fun r =>
    ilikeContains r.request_type (strChars "hvac") ||
      ilikeContains r.request_type (strChars "air") ||
      ilikeContains r.request_type (strChars "heating") ||
      ilikeContains r.request_type (strChars "cooling"))
  let s1 := hvacRequestList.foldl
    (fun s r => boostStep db s r.requested_date) base.score
  pyRound4 (min 1 (max 0 (hvacSeasonal db s1)))

/-- `calculate_hvac_score`: baseline (trade `"hvac"`), HVAC-request
boosts, age window, seasonal boost.  The source has a function-local
`from datetime import datetime` *after* the age-window branch
(`trade_scorers.py:136`), which makes `datetime` local to the whole
function; the use `datetime.now().year` inside the age branch
(line 130) therefore raises `UnboundLocalError` whenever the property
exists and has a truthy `first_improvement_year`.  The raise is
modelled as `none`; on every path that returns, the age boost is
consequently never applied. -/
noncomputable def calculate_hvac_score (db : DB) (pid : ℤ) : Option ℝ :=
  match findProp db pid with
  | some p =>
    if pyTruthyInt p.first_improvement_year then none
    else some (hvacReturnScore db pid)
  | none => some (hvacReturnScore db pid)

/-- `calculate_siding_score`: baseline (trade `"siding"`),
siding/exterior-violation boosts, and the wind boost. -/
noncomputable def calculate_siding_score (db : DB) (pid : ℤ) : ℝ :=
  let base := calculate_baseline_score db pid (some "siding")
  let sidingViolationList := (violationsOf db pid).filter (fun v =>
    ilikeContains v.violation_type (strChars "siding") ||
      ilikeContains v.violation_description (strChars "siding") ||
      ilikeContains v.violation_type (strChars "exterior"))
  let s1 := sidingViolationList.foldl
    (fun s v => boostStep db s v.violation_date) base.score
  let s2 :=
    match findProp db pid with
    | some p =>
      if pyTruthyStr p.situs_zip then
        let stormList := db.storms.filter (fun st =>
          st.zip_code == p.situs_zip &&
            ilikeContains st.event_type (strChars "wind") &&
            decide (db.today - 90 ≤ st.event_date))
        if !stormList.isEmpty then
          let maxWind := pyMaxQ (stormList.map (fun st => st.magnitude.getD 0))
          if 60 < maxWind then min 1 (s1 + 0.3) else s1
        else s1
      else s1
    | none => s1
  pyRound4 (min 1 (max 0 s2))

/-- `calculate_electrical_score`: baseline (trade `"electrical"`),
electrical-request boosts, and the 20-30 year age window. -/
noncomputable def calculate_electrical_score (db : DB) (pid : ℤ) : ℝ :=
  let base := calculate_baseline_score db pid (some "electrical")
  let electricalRequestList := (requestsOf db pid).filter (fun r =>
    ilikeContains r.request_type (strChars "electrical") ||
      ilikeContains r.request_type (strChars "electric") ||
      ilikeContains r.request_type (strChars "wiring"))
  let s1 := electricalRequestList.foldl
    (fun s r => boostStep db s r.requested_date) base.score
  let s2 :=
    match findProp db pid with
    | some p =>
      if pyTruthyInt p.first_improvement_year then
        let age := db.currentYear - p.first_improvement_year.getD 0
        if 20 ≤ age ∧ age ≤ 30 then min 1 (s1 + 0.2) else s1
      else s1
    | none => s1
  pyRound4 (min 1 (max 0 s2))

/-! ## scoring_service.py -/

/-- `TRADE_OPTIONS` from `scoring_service.py` (as codepoint lists;
`str.lower` on the ASCII trade names is `toLowerCp`). -/
def TRADE_OPTIONS : List (List Nat) :=
  [strChars "roofing", strChars "hvac", strChars "siding",
   strChars "electrical"]

/-- Result of `score_property` restricted to the fields the claims
are about: the score and the optional error marker. -/
structure ScoreResult where
  score : ℝ
  error : Option String

/-- `score_property` from `scoring_service.py`: a missing property
yields `{"score": 0.0, "error": "Property not found"}` (no exception on
that path); a truthy trade string in `TRADE_OPTIONS` dispatches to the
trade scorer; everything else falls back to baseline scoring with no
trade.  The hvac scorer can raise (see `calculate_hvac_score`), and
the exception propagates to the caller; the raise is modelled as
`none`, every normal return as `some`. -/
noncomputable def score_property (db : DB) (pid : ℤ)
    (trade : Option String) : Option ScoreResult :=
  match findProp db pid with
  | none => some ⟨0, some "Property not found"⟩
  | some _ =>
    match trade with
    | some t =>
      if strChars t ≠ [] ∧ toLowerCp (strChars t) ∈ TRADE_OPTIONS then
        if toLowerCp (strChars t) = strChars "roofing" then
          some ⟨calculate_roofing_score db pid, none⟩
        else if toLowerCp (strChars t) = strChars "hvac" then
          (calculate_hvac_score db pid).map (fun s => (⟨s, none⟩ : ScoreResult))
        else if toLowerCp (strChars t) = strChars "siding" then
          some ⟨calculate_siding_score db pid, none⟩
        else if toLowerCp (strChars t) = strChars "electrical" then
          some ⟨calculate_electrical_score db pid, none⟩
        else some ⟨(calculate_baseline_score db pid none).score, none⟩
      else some ⟨(calculate_baseline_score db pid none).score, none⟩
    | none => some ⟨(calculate_baseline_score db pid none).score, none⟩

/-! ## address_normalization.py

The regex-based parsing is embedded as explicit codepoint-list
scanners.  Each scanner mirrors one `re` pattern of the source:
word/digit/space classes are the ASCII classes the input data uses,
`\b` is the word/non-word transition, `re.search` takes the leftmost
match, and `re.sub` removes/replaces non-overlapping matches left to
right. -/

/-- `\w` (word character) over codepoints. -/
def isWordCp (c : Nat) : Bool :=
  decide ((48 ≤ c ∧ c ≤ 57) ∨ (65 ≤ c ∧ c ≤ 90) ∨ (97 ≤ c ∧ c ≤ 122) ∨ c = 95)

/-- `\d` over codepoints. -/
def isDigitCp (c : Nat) : Bool := decide (48 ≤ c ∧ c ≤ 57)

/-- `[A-Z]` over codepoints. -/
def isUpperCp (c : Nat) : Bool := decide (65 ≤ c ∧ c ≤ 90)

/-- ASCII letter. -/
def isAlphaCp (c : Nat) : Bool :=
  decide ((65 ≤ c ∧ c ≤ 90) ∨ (97 ≤ c ∧ c ≤ 122))

/-- `\s` over codepoints (space, tab, LF, VT, FF, CR). -/
def isSpaceCp (c : Nat) : Bool :=
  decide (c = 32 ∨ c = 9 ∨ c = 10 ∨ c = 11 ∨ c = 12 ∨ c = 13)

/-- ASCII uppercasing of one codepoint (`str.upper`). -/
def upperCp (c : Nat) : Nat := if 97 ≤ c ∧ c ≤ 122 then c - 32 else c

/-- `str.strip()` over codepoints. -/
def stripCp (s : List Nat) : List Nat :=
  ((s.dropWhile isSpaceCp).reverse.dropWhile isSpaceCp).reverse

/-- Trailing-whitespace removal. -/
def dropTrailingWs (s : List Nat) : List Nat :=
  (s.reverse.dropWhile isSpaceCp).reverse

/-- Helper of `collapseWs` tracking whether the previous character was
whitespace. -/
def collapseWsGo : Bool → List Nat → List Nat
  | _, [] => []
  | prevSp, c :: rest =>
    if isSpaceCp c then
      if prevSp then collapseWsGo true rest
      else 32 :: collapseWsGo true rest
    else c :: collapseWsGo false rest

/-- `re.sub(r"\s+", " ", address)`. -/
def collapseWs (s : List Nat) : List Nat := collapseWsGo false s

/-- `address.strip().upper()` followed by whitespace collapsing: the
cleaning prologue of `normalize_address` and
`normalize_address_simple`. -/
def cleanAddress (s : List Nat) : List Nat :=
  collapseWs ((stripCp s).map upperCp)

/-- Helper of `splitWsCp`. -/
def splitWsGo : List Nat → List Nat → List (List Nat)
  | [], cur => if cur.isEmpty then [] else [cur.reverse]
  | c :: rest, cur =>
    if isSpaceCp c then
      if cur.isEmpty then splitWsGo rest [] else cur.reverse :: splitWsGo rest []
    else splitWsGo rest (c :: cur)

/-- Python `str.split()` (split on whitespace runs, dropping empties). -/
def splitWsCp (s : List Nat) : List (List Nat) := splitWsGo s []

/-- Word character test at an index (positions past the end count as
non-word, as regex `\b` treats string edges). -/
def isWordAt (s : List Nat) (i : Nat) : Bool :=
  match s[i]? with
  | some c => isWordCp c
  | none => false

/-- Left word boundary before index `i`. -/
def boundaryLeft (s : List Nat) (i : Nat) : Bool :=
  i == 0 || !(isWordAt s (i - 1))

/-- `n` digits starting at index `i`. -/
def digitsAt (s : List Nat) (i n : Nat) : Bool :=
  (List.range n).all (fun k =>
    match s[i + k]? with
    | some c => isDigitCp c
    | none => false)

/-- Match of `r"\b(\d{5})(?:-(\d{4}))?\b"` anchored at index `i`
(with the regex backtracking over the optional `-dddd` group). -/
def zipMatchAt (s : List Nat) (i : Nat) : Bool :=
  boundaryLeft s i && digitsAt s i 5 &&
    ((s[i + 5]? == some 45 && digitsAt s (i + 6) 4 && !(isWordAt s (i + 10))) ||
      !(isWordAt s (i + 5)))

/-- `re.search` of the ZIP pattern: leftmost matching start index. -/
def zipSearch (s : List Nat) : Option Nat :=
  (List.range (s.length + 1)).find? (zipMatchAt s)

/-- Match of `r"\b([A-Z]{2})\b"` anchored at index `i`. -/
def stateMatchAt (s : List Nat) (i : Nat) : Bool :=
  boundaryLeft s i &&
    (match s[i]? with | some c => isUpperCp c | none => false) &&
    (match s[i + 1]? with | some c => isUpperCp c | none => false) &&
    !(isWordAt s (i + 2))

/-- `re.search` of the two-letter state pattern. -/
def stateSearch (s : List Nat) : Option Nat :=
  (List.range (s.length + 1)).find? (stateMatchAt s)

/-- The state allow-list `["TX", "CA", "NY", "FL", "IL"]`. -/
def stateAllowList : List (List Nat) :=
  [strChars "TX", strChars "CA", strChars "NY", strChars "FL", strChars "IL"]

/-- Last index of a codepoint (for `rsplit(",", 1)`). -/
def lastIdxOf (c : Nat) (s : List Nat) : Option Nat :=
  match s.reverse.findIdx? (fun x => x == c) with
  | some r => some (s.length - 1 - r)
  | none => none

/-- `re.search(r"([A-Z][A-Z\s]+),?\s*$", address)`: leftmost start
index together with the greedy captured group. -/
def cityRegexSearch (s : List Nat) : Option (Nat × List Nat) :=
  let t1 := dropTrailingWs s
  let t2 := if t1.getLast? == some 44 then t1.dropLast else t1
  match (List.range (t2.length + 1)).find? (fun i =>
      decide (i + 2 ≤ t2.length) &&
      (match t2[i]? with | some c => isUpperCp c | none => false) &&
      (t2.drop (i + 1)).all (fun c => isUpperCp c || isSpaceCp c)) with
  | some i => some (i, t2.drop i)
  | none => none

/-- `re.match(r"^(\d+[A-Z]?)\s+", address)`: the street-number token
and the stripped remainder. -/
def streetNumberExtract (s : List Nat) : Option (List Nat × List Nat) :=
  let d := s.takeWhile isDigitCp
  if d.isEmpty then none
  else
    match s.drop d.length with
    | [] => none
    | c :: rest2 =>
      if isUpperCp c then
        match rest2 with
        | c2 :: _ => if isSpaceCp c2 then some (d ++ [c], stripCp rest2) else none
        | [] => none
      else if isSpaceCp c then some (d, stripCp (c :: rest2))
      else none

/-- `re.match(r"^([NSEW]\.?)\s+", address)`: the directional letter
and the stripped remainder. -/
def streetPrefixExtract (s : List Nat) : Option (Nat × List Nat) :=
  match s with
  | [] => none
  | c :: rest =>
    if c == 78 || c == 83 || c == 69 || c == 87 then
      match rest with
      | 46 :: rest2 =>
        match rest2 with
        | c3 :: _ => if isSpaceCp c3 then some (c, stripCp rest2) else none
        | [] => none
      | c2 :: _ => if isSpaceCp c2 then some (c, stripCp rest) else none
      | [] => none
    else none

/-- `STREET_PREFIXES` lookup for the single directional letter. -/
def prefixFull (c : Nat) : List Nat :=
  if c == 78 then strChars "north"
  else if c == 83 then strChars "south"
  else if c == 69 then strChars "east"
  else strChars "west"

/-- `STREET_SUFFIXES` from `address_normalization.py`, in insertion
order. -/
def STREET_SUFFIXES : List (List Nat × List Nat) :=
  [(strChars "st", strChars "street"), (strChars "st.", strChars "street"),
   (strChars "ave", strChars "avenue"), (strChars "ave.", strChars "avenue"),
   (strChars "av", strChars "avenue"), (strChars "av.", strChars "avenue"),
   (strChars "rd", strChars "road"), (strChars "rd.", strChars "road"),
   (strChars "dr", strChars "drive"), (strChars "dr.", strChars "drive"),
   (strChars "ln", strChars "lane"), (strChars "ln.", strChars "lane"),
   (strChars "blvd", strChars "boulevard"), (strChars "blvd.", strChars "boulevard"),
   (strChars "ct", strChars "court"), (strChars "ct.", strChars "court"),
   (strChars "pl", strChars "place"), (strChars "pl.", strChars "place"),
   (strChars "cir", strChars "circle"), (strChars "cir.", strChars "circle"),
   (strChars "pkwy", strChars "parkway"), (strChars "pkwy.", strChars "parkway"),
   (strChars "trl", strChars "trail"), (strChars "trl.", strChars "trail"),
   (strChars "way", strChars "way")]

/-- `STREET_PREFIXES` from `address_normalization.py`, in insertion
order. -/
def STREET_PREFIXES : List (List Nat × List Nat) :=
  [(strChars "n", strChars "north"), (strChars "n.", strChars "north"),
   (strChars "s", strChars "south"), (strChars "s.", strChars "south"),
   (strChars "e", strChars "east"), (strChars "e.", strChars "east"),
   (strChars "w", strChars "west"), (strChars "w.", strChars "west")]

/-- `str.endswith` over codepoints. -/
def endsWithCp (s suf : List Nat) : Bool := suf.isSuffixOf s

/-- `re.sub(r"\s+" + re.escape(abbr) + r"\.?$", "", address,
flags=IGNORECASE)`: remove a trailing whitespace run followed by the
abbreviation and an optional dot. -/
def removeSuffixPattern (addr abbr : List Nat) : List Nat :=
  let la := toLowerCp addr
  let e : Nat :=
    if endsWithCp la (abbr ++ [46]) then abbr.length + 1
    else if endsWithCp la abbr then abbr.length
    else 0
  if e == 0 then addr
  else
    let rest := addr.take (addr.length - e)
    match rest.getLast? with
    | some lc => if isSpaceCp lc then dropTrailingWs rest else addr
    | none => addr

/-- `re.sub(r"\s+" + re.escape(full) + r"$", "", address,
flags=IGNORECASE)`. -/
def removeSuffixFullPattern (addr full : List Nat) : List Nat :=
  let la := toLowerCp addr
  if endsWithCp la full then
    let rest := addr.take (addr.length - full.length)
    match rest.getLast? with
    | some lc => if isSpaceCp lc then dropTrailingWs rest else addr
    | none => addr
  else addr

/-- The suffix-extraction loop of `normalize_address`: first table
entry whose abbreviation or full form ends the lowercased address
(preceded by a space) wins; both removal substitutions then run. -/
def suffixLoop : List (List Nat × List Nat) → List Nat →
    Option (List Nat × List Nat)
  | [], _ => none
  | (abbr, full) :: rest, addr =>
    let la := toLowerCp addr
    if endsWithCp la (32 :: abbr) || endsWithCp la (32 :: full) then
      some (full, removeSuffixFullPattern (removeSuffixPattern addr abbr) full)
    else suffixLoop rest addr

/-- Helper of `titleCp` tracking whether the previous character was a
letter. -/
def titleGo : Bool → List Nat → List Nat
  | _, [] => []
  | prevAlpha, c :: rest =>
    if isAlphaCp c then
      (if prevAlpha then lowerCp c else upperCp c) :: titleGo true rest
    else c :: titleGo false rest

/-- Python `str.title()`. -/
def titleCp (s : List Nat) : List Nat := titleGo false s

/-- `" ".join(parts)`. -/
def joinWithSpace : List (List Nat) → List Nat
  | [] => []
  | [x] => x
  | x :: xs => x ++ 32 :: joinWithSpace xs

/-- The structured result of `normalize_address`.  The source's
`street_prefix` key is the `street_direction` field. -/
structure NormalizedAddress where
  street_number : Option (List Nat)
  street_name : Option (List Nat)
  street_suffix : Option (List Nat)
  street_direction : Option (List Nat)
  city : Option (List Nat)
  state : Option (List Nat)
  zip_code : Option (List Nat)
  normalized : List Nat
deriving DecidableEq

/-- The all-null result for falsy input. -/
def emptyNormalized : NormalizedAddress :=
  ⟨none, none, none, none, none, none, none, []⟩

/-- `normalize_address` from `address_normalization.py`. -/
def normalize_address (addressOpt : Option (List Nat)) : NormalizedAddress :=
  if !pyTruthyStr addressOpt then emptyNormalized
  else
    let a0 := cleanAddress (addressOpt.getD [])
    let zres : Option (List Nat) × List Nat :=
      match zipSearch a0 with
      | some i => (some ((a0.drop i).take 5), stripCp (a0.take i))
      | none => (none, a0)
    let a1 := zres.2
    let sres : Option (List Nat) × List Nat :=
      match stateSearch a1 with
      | some i =>
        let pair := (a1.drop i).take 2
        if pair ∈ stateAllowList then (some pair, stripCp (a1.take i))
        else (none, a1)
      | none => (none, a1)
    let a2 := sres.2
    let cres : Option (List Nat) × List Nat :=
      if sres.1.isSome then
        match lastIdxOf 44 a2 with
        | some j => (some (stripCp (a2.drop (j + 1))), stripCp (a2.take j))
        | none =>
          match cityRegexSearch a2 with
          | some ig =>
            let pot := stripCp ig.2
            if (splitWsCp pot).length ≤ 3 then (some pot, stripCp (a2.take ig.1))
            else (none, a2)
          | none => (none, a2)
      else (none, a2)
    let a3 := cres.2
    let nres : Option (List Nat) × List Nat :=
      match streetNumberExtract a3 with
      | some tr => (some tr.1, tr.2)
      | none => (none, a3)
    let a4 := nres.2
    let dres : Option (List Nat) × List Nat :=
      match streetPrefixExtract a4 with
      | some cr => (some (prefixFull cr.1), cr.2)
      | none => (none, a4)
    let a5 := dres.2
    let fres : Option (List Nat) × List Nat :=
      match suffixLoop STREET_SUFFIXES a5 with
      | some fr => (some fr.1, fr.2)
      | none => (none, a5)
    let a6 := fres.2
    let sname : Option (List Nat) :=
      if a6.isEmpty then none else some (stripCp a6)
    let parts : List (List Nat) :=
      (if pyTruthyStr nres.1 then [nres.1.getD []] else []) ++
      (if pyTruthyStr dres.1 then [titleCp (dres.1.getD [])] else []) ++
      (if pyTruthyStr sname then [titleCp (sname.getD [])] else []) ++
      (if pyTruthyStr fres.1 then [titleCp (fres.1.getD [])] else [])
    ⟨nres.1, sname, fres.1, dres.1, cres.1, sres.1, zres.1,
      joinWithSpace parts⟩

/-- Case-insensitive anchored match of a lowercase pattern. -/
def matchesCI (abbr s : List Nat) : Bool :=
  decide (abbr.length ≤ s.length) && ((s.take abbr.length).map lowerCp == abbr)

/-- One pass of `re.sub(r"\b" + re.escape(abbr) + r"\b\.?", full,
address, flags=IGNORECASE)`: fuel-indexed left-to-right scan replacing
non-overlapping word-bounded occurrences (the fuel always suffices,
the scan consumes at least one character per step). -/
def substWordGo (abbr full : List Nat) : Nat → Option Nat → List Nat → List Nat
  | 0, _, s => s
  | _ + 1, _, [] => []
  | fuel + 1, prev, c :: rest =>
    let boundaryB : Bool :=
      match prev with
      | none => true
      | some pc => !isWordCp pc
    if boundaryB && matchesCI abbr (c :: rest) then
      let after := (c :: rest).drop abbr.length
      let lastAbbr := (abbr.getLast?).getD 0
      let nextWord : Bool :=
        match after.head? with
        | some nc => isWordCp nc
        | none => false
      if isWordCp lastAbbr != nextWord then
        let consumedDot : Bool := after.head? == some 46
        let rest2 := if consumedDot then after.drop 1 else after
        let prevNew : Option Nat := if consumedDot then some 46 else some lastAbbr
        full ++ substWordGo abbr full fuel prevNew rest2
      else c :: substWordGo abbr full fuel (some c) rest
    else c :: substWordGo abbr full fuel (some c) rest

/-- `re.sub` of one word-bounded abbreviation over the whole string. -/
def substWord (abbr full s : List Nat) : List Nat :=
  substWordGo abbr full (s.length + 1) none s

/-- `normalize_address_simple` from `address_normalization.py`. -/
def normalize_address_simple (addressOpt : Option (List Nat)) : List Nat :=
  if !pyTruthyStr addressOpt then []
  else
    let a := cleanAddress (addressOpt.getD [])
    let a1 := STREET_SUFFIXES.foldl (fun acc ab => substWord ab.1 ab.2 acc) a
    STREET_PREFIXES.foldl (fun acc ab => substWord ab.1 ab.2 acc) a1

/-- `address_similarity` from `address_normalization.py`: exact match
of the simple normal forms gives 1.0, otherwise token-set Jaccard
similarity; empty inputs or token sets give 0.0. -/
def address_similarity (addr1 addr2 : List Nat) : ℚ :=
  if addr1.isEmpty || addr2.isEmpty then 0
  else
    let norm1 := toLowerCp (normalize_address_simple (some addr1))
    let norm2 := toLowerCp (normalize_address_simple (some addr2))
    if norm1 = norm2 then 1
    else
      let tokens1 := (splitWsCp norm1).toFinset
      let tokens2 := (splitWsCp norm2).toFinset
      if tokens1 = ∅ ∨ tokens2 = ∅ then 0
      else
        let inter := tokens1 ∩ tokens2
        let uni := tokens1 ∪ tokens2
        if uni ≠ ∅ then ((inter.card : ℕ) : ℚ) / ((uni.card : ℕ) : ℚ) else 0

/-! ## property_matching.py -/

/-- `MATCH_THRESHOLD` from `property_matching.py`. -/
def MATCH_THRESHOLD : ℚ := 7/10

/-- `HIGH_CONFIDENCE_THRESHOLD` from `property_matching.py`. -/
def HIGH_CONFIDENCE_THRESHOLD : ℚ := 9/10

/-- The best-candidate loop shared by the three matching strategies:
candidates whose score function yields `none` are skipped, and a
strictly greater score replaces the running best. -/
def bestFold (cand : List Property) (scoreOf : Property → Option ℚ)
    (init : Option Property × ℚ) : Option Property × ℚ :=
  match cand with
  | [] => init
  | p :: rest =>
    bestFold rest scoreOf
      (match scoreOf p with
        | none => init
        | some sc => if init.2 < sc then (some p, sc) else init)

/-- `select(Property).where(Property.situs_zip == zip_to_match)`. -/
def zipCandidates (db : DB) (z : List Nat) : List Property :=
  db.properties.filter (fun p => p.situs_zip == some z)

/-- The coordinate bounding-box query of strategy 2
(`centroid between ±0.001`). -/
def coordCandidates (db : DB) (lat lon : ℚ) : List Property :=
  db.properties.filter (fun p =>
    p.centroid_y.isSome && p.centroid_x.isSome &&
    decide (lat - 1/1000 ≤ p.centroid_y.getD 0) &&
    decide (p.centroid_y.getD 0 ≤ lat + 1/1000) &&
    decide (lon - 1/1000 ≤ p.centroid_x.getD 0) &&
    decide (p.centroid_x.getD 0 ≤ lon + 1/1000))

/-- Strategy 1 candidate score: similarity of structural normal forms,
with a `+0.2` boost (capped at 1) for equal street numbers; properties
with a falsy stored address are skipped. -/
def strategy1Score (na : NormalizedAddress) (p : Property) : Option ℚ :=
  if !pyTruthyStr p.situs_address then none
  else
    let pn := normalize_address p.situs_address
    let base := address_similarity na.normalized pn.normalized
    if pyTruthyStr na.street_number && pyTruthyStr pn.street_number then
      if na.street_number == pn.street_number then some (min 1 (base + 2/10))
      else some base
    else some base

/-- Strategy 2 candidate score: similarity blended `0.7/0.3` with an
inverse-distance score when the candidate has truthy coordinates. -/
def strategy2Score (na : NormalizedAddress) (lat lon : ℚ) (p : Property) :
    Option ℚ :=
  if !pyTruthyStr p.situs_address then none
  else
    let pn := normalize_address p.situs_address
    let base := address_similarity na.normalized pn.normalized
    if pyTruthyQ p.centroid_y && pyTruthyQ p.centroid_x then
      let latDiff := |p.centroid_y.getD 0 - lat|
      let lngDiff := |p.centroid_x.getD 0 - lon|
      let distanceScore := 1 - min 1 ((latDiff + lngDiff) / (1/1000 + 1/1000))
      some (base * (7/10) + distanceScore * (3/10))
    else some base

/-- Strategy 3 candidate score: similarity of the structural normal
form against the raw stored address. -/
def strategy3Score (na : NormalizedAddress) (p : Property) : Option ℚ :=
  if !pyTruthyStr p.situs_address then none
  else some (address_similarity na.normalized (p.situs_address.getD []))

/-- The `zip_to_match` selection (`normalized.get("zip_code") or
zip_code`, guarded by its truthiness). -/
def zipToMatchOf (na : NormalizedAddress) (zip_code : Option (List Nat)) :
    Option (List Nat) :=
  if pyTruthyStr na.zip_code then na.zip_code
  else if pyTruthyStr zip_code then zip_code
  else none

/-- Strategy 1 of `match_address_to_property`: the ZIP-scoped
structural match (skipped entirely when no truthy ZIP is available). -/
def cascade1 (db : DB) (na : NormalizedAddress)
    (zipToMatch : Option (List Nat)) : Option Property × ℚ :=
  match zipToMatch with
  | some z => bestFold (zipCandidates db z) (strategy1Score na) (none, 0)
  | none => (none, 0)

/-- Strategies 1-2: the coordinate strategy runs only when strategy 1
stayed below the threshold and both coordinates are truthy. -/
def cascade2 (db : DB) (na : NormalizedAddress)
    (zipToMatch : Option (List Nat)) (latitude longitude : Option ℚ) :
    Option Property × ℚ :=
  let best1 := cascade1 db na zipToMatch
  if best1.2 < MATCH_THRESHOLD then
    if pyTruthyQ latitude && pyTruthyQ longitude then
      bestFold (coordCandidates db (latitude.getD 0) (longitude.getD 0))
        (strategy2Score na (latitude.getD 0) (longitude.getD 0)) best1
    else best1
  else best1

/-- The three-strategy cascade of `match_address_to_property`, after
the input address has normalized to a non-empty string. -/
def matchCascade (db : DB) (na : NormalizedAddress)
    (zipToMatch : Option (List Nat)) (latitude longitude : Option ℚ) :
    Option Property × ℚ :=
  let best2 := cascade2 db na zipToMatch latitude longitude
  if best2.2 < MATCH_THRESHOLD then
    match zipToMatch with
    | some z => bestFold (zipCandidates db z) (strategy3Score na) best2
    | none => best2
  else best2

/-- `match_address_to_property` from `property_matching.py`. -/
def match_address_to_property (db : DB) (address : Option (List Nat))
    (zip_code : Option (List Nat)) (latitude longitude : Option ℚ) :
    Option Property × ℚ :=
  if !pyTruthyStr address then (none, 0)
  else
    let na := normalize_address address
    if na.normalized.isEmpty then (none, 0)
    else
      let b := matchCascade db na (zipToMatchOf na zip_code) latitude longitude
      if MATCH_THRESHOLD ≤ b.2 then b else (none, b.2)

/-- Failing input for the hvac scorer: property id 1 with a truthy
`first_improvement_year` (any truthy year triggers the raise). -/
def agedProp : Property := ⟨1, none, none, none, some 2005, none, none⟩

/-- Store for the hvac failing input: one aged property, no signals,
day 0, year 2026, month 1. -/
def agedDB : DB := ⟨[agedProp], [], [], [], 0, 2026, 1⟩

/-- Witness data for C5 and C8: a store holding exactly one property
(id 1) with no signals. -/
def witnessProp : Property := ⟨1, none, none, none, none, none, none⟩

/-- Witness database: one property, no signals, day 0, January 2026. -/
def witnessDB : DB := ⟨[witnessProp], [], [], [], 0, 2026, 1⟩

/-! # Theorems -/

lemma calculate_signal_strength_valid (base : ℝ) (d h ref : ℤ) :
    calculate_signal_strength base (.valid d) h ref =
      decayValue base (ref - d) h := rfl

lemma decayValue_nonneg {base : ℝ} (hb : 0 ≤ base) (d h : ℤ) :
    0 ≤ decayValue base d h := by
  unfold decayValue
  split
  · exact hb
  · split
    · exact hb
    · exact le_max_left 0 _

lemma decayValue_le_base {base : ℝ} (hb : 0 ≤ base) (d h : ℤ) :
    decayValue base d h ≤ base := by
  unfold decayValue
  split
  · exact le_rfl
  · split
    · exact le_rfl
    · exact max_le hb (min_le_left _ _)

/-- For a non-future date the clamped decay collapses to the bare
exponential formula. -/
lemma decayValue_eq_formula {base : ℝ} {d h : ℤ} (hb : 0 ≤ base) (hh : 0 < h)
    (hd : 0 ≤ d) :
    decayValue base d h = base * (2 : ℝ) ^ (-(d : ℝ) / (h : ℝ)) := by
  unfold decayValue
  have hdR : (0 : ℝ) ≤ (d : ℝ) := by exact_mod_cast hd
  have hhR : (0 : ℝ) < (h : ℝ) := by exact_mod_cast hh
  have hexp : -(d : ℝ) / (h : ℝ) ≤ 0 :=
    div_nonpos_iff.mpr (Or.inr ⟨neg_nonpos.mpr hdR, hhR.le⟩)
  have hf1 : (2 : ℝ) ^ (-(d : ℝ) / (h : ℝ)) ≤ 1 :=
    Real.rpow_le_one_of_one_le_of_nonpos (by norm_num) hexp
  have hf0 : 0 < (2 : ℝ) ^ (-(d : ℝ) / (h : ℝ)) :=
    Real.rpow_pos_of_pos (by norm_num) _
  rcases lt_or_eq_of_le hd with hpos | hzero
  · have h1 : ¬ (d < 0) := by omega
    have h2 : ¬ (d = 0) := by omega
    simp only [h1, h2, if_false]
    rw [min_eq_right (mul_le_of_le_one_right hb hf1),
      max_eq_right (mul_nonneg hb hf0.le)]
  · have h1 : ¬ (d < 0) := by omega
    simp only [h1, if_false, ← hzero]
    norm_num

/-- Monotone non-increase of the decayed value in days elapsed. -/
lemma decayValue_antitone {base : ℝ} {h : ℤ} (hb : 0 ≤ base) (hh : 0 < h)
    {e1 e2 : ℤ} (he : e1 ≤ e2) :
    decayValue base e2 h ≤ decayValue base e1 h := by
  rcases lt_or_le e1 0 with hneg | hpos
  · have : decayValue base e1 h = base := by
      unfold decayValue
      simp [hneg]
    rw [this]
    exact decayValue_le_base hb e2 h
  · have he2 : 0 ≤ e2 := le_trans hpos he
    rw [decayValue_eq_formula hb hh hpos, decayValue_eq_formula hb hh he2]
    have hhR : (0 : ℝ) < (h : ℝ) := by exact_mod_cast hh
    have hcast : (e1 : ℝ) ≤ (e2 : ℝ) := by exact_mod_cast he
    have hexp : -(e2 : ℝ) / (h : ℝ) ≤ -(e1 : ℝ) / (h : ℝ) :=
      div_le_div_of_nonneg_right (by linarith) hhR.le
    exact mul_le_mul_of_nonneg_left
      (Real.rpow_le_rpow_of_exponent_le (by norm_num) hexp) hb

/-- **C3.** For `base_score ≥ 0` and half-life `> 0`: a null
`signal_date` yields exactly `0.0`; every signal-date argument yields a
value in `[0, base_score]`; and a future-dated signal
(`days_elapsed < 0`) yields exactly `base_score`. -/
theorem claim_C3_decay_bounds (base : ℝ) (h ref : ℤ) (sd : DateArg) (dfut : ℤ)
    (hb : 0 ≤ base) (hh : 0 < h) (hfut : ref - dfut < 0) :
    calculate_signal_strength base .null h ref = 0 ∧
    (0 ≤ calculate_signal_strength base sd h ref ∧
      calculate_signal_strength base sd h ref ≤ base) ∧
    calculate_signal_strength base (.valid dfut) h ref = base := by
  refine ⟨rfl, ⟨?_, ?_⟩, ?_⟩
  · cases sd with
    | null => exact le_rfl
    | malformed => exact le_rfl
    | valid d => exact decayValue_nonneg hb _ _
  · cases sd with
    | null => exact hb
    | malformed => exact hb
    | valid d => exact decayValue_le_base hb _ _
  · unfold calculate_signal_strength decayValue
    simp [hfut]

/-- Witness for C3 at `base_score = 1`, `half_life = 30`,
`reference_date = 0`, signal date 10 days in the past, future signal
date 5 days ahead. -/
theorem claim_C3_decay_bounds_witness :
    (0 : ℝ) ≤ 1 ∧ (0 : ℤ) < 30 ∧ (0 : ℤ) - 5 < 0 ∧
    (calculate_signal_strength 1 .null 30 0 = 0 ∧
      (0 ≤ calculate_signal_strength 1 (.valid (-10)) 30 0 ∧
        calculate_signal_strength 1 (.valid (-10)) 30 0 ≤ 1) ∧
      calculate_signal_strength 1 (.valid 5) 30 0 = 1) :=
  ⟨by norm_num, by norm_num, by norm_num,
    claim_C3_decay_bounds 1 30 0 (.valid (-10)) 5 (by norm_num) (by norm_num)
      (by norm_num)⟩

/-- **C4.** For fixed `base_score ≥ 0` and `half_life_days > 0`, the
decayed strength is monotone non-increasing in days elapsed, and at
exactly `half_life_days` elapsed it equals `base_score / 2`. -/
theorem claim_C4_decay_monotone (base : ℝ) (h ref e1 e2 : ℤ)
    (hb : 0 ≤ base) (hh : 0 < h) (he : e1 ≤ e2) :
    calculate_signal_strength base (.valid (ref - e2)) h ref ≤
      calculate_signal_strength base (.valid (ref - e1)) h ref ∧
    calculate_signal_strength base (.valid (ref - h)) h ref = base / 2 := by
  constructor
  · have h1 : ref - (ref - e1) = e1 := by ring
    have h2 : ref - (ref - e2) = e2 := by ring
    rw [calculate_signal_strength_valid, calculate_signal_strength_valid, h1, h2]
    exact decayValue_antitone hb hh he
  · have h1 : ref - (ref - h) = h := by ring
    rw [calculate_signal_strength_valid, h1, decayValue_eq_formula hb hh hh.le]
    have hne : (h : ℝ) ≠ 0 := by exact_mod_cast hh.ne'
    rw [neg_div, div_self hne, Real.rpow_neg_one]
    norm_num
    ring

/-- Witness for C4 at `base_score = 1`, `half_life = 30`,
`reference_date = 0`, elapsed days 0 and 10. -/
theorem claim_C4_decay_monotone_witness :
    (0 : ℝ) ≤ 1 ∧ (0 : ℤ) < 30 ∧ (0 : ℤ) ≤ 10 ∧
    (calculate_signal_strength 1 (.valid ((0 : ℤ) - 10)) 30 0 ≤
        calculate_signal_strength 1 (.valid ((0 : ℤ) - 0)) 30 0 ∧
      calculate_signal_strength 1 (.valid ((0 : ℤ) - 30)) 30 0 = 1 / 2) :=
  ⟨by norm_num, by norm_num, by norm_num,
    claim_C4_decay_monotone 1 30 0 0 10 (by norm_num) (by norm_num)
      (by norm_num)⟩

lemma round_mem {α : Type} [LinearOrderedField α] [FloorRing α]
    {y : α} {a b : ℤ} (h1 : (a : α) ≤ y) (h2 : y ≤ (b : α)) :
    a ≤ round y ∧ round y ≤ b := by
  have hf : a ≤ ⌊y⌋ := Int.le_floor.mpr h1
  have hc : ⌈y⌉ ≤ b := Int.ceil_le.mpr h2
  have hfc : ⌊y⌋ ≤ ⌈y⌉ := Int.floor_le_ceil y
  unfold round
  split
  · exact ⟨hf, le_trans hfc hc⟩
  · exact ⟨le_trans hf hfc, hc⟩

lemma pyRound4_mem_unit {x : ℝ} (h0 : 0 ≤ x) (h1 : x ≤ 1) :
    0 ≤ pyRound4 x ∧ pyRound4 x ≤ 1 := by
  have hy0 : ((0 : ℤ) : ℝ) ≤ x * 10000 := by push_cast; nlinarith
  have hy1 : x * 10000 ≤ ((10000 : ℤ) : ℝ) := by push_cast; nlinarith
  obtain ⟨hl, hr⟩ := round_mem hy0 hy1
  unfold pyRound4
  constructor
  · apply div_nonneg _ (by norm_num)
    exact_mod_cast hl
  · rw [div_le_one (by norm_num)]
    exact_mod_cast hr

lemma pyRound4Q_half : pyRound4Q (1/2) = 1/2 := by
  unfold pyRound4Q
  have h1 : (1/2 : ℚ) * 10000 = ((5000 : ℤ) : ℚ) := by norm_num
  rw [h1, round_intCast]
  norm_num

lemma pyRound2Q_apply_neg_half : pyRound2Q ((1/2 - 1) * 100) = -50 := by
  unfold pyRound2Q
  have h1 : ((1/2 - 1 : ℚ) * 100) * 100 = ((-5000 : ℤ) : ℚ) := by norm_num
  rw [h1, round_intCast]
  norm_num

lemma calibration_concrete :
    calculate_calibration_adjustments [("0.5-0.7", ⟨50, 20⟩)] =
      [("0.5-0.7", ⟨50, 20, 1/2, -50⟩)] := by
  unfold calculate_calibration_adjustments
  rw [List.filterMap_cons, List.filterMap_nil]
  have hpos : (0 : ℚ) < (50 : ℚ) := by norm_num
  have hclamp : max (1/2 : ℚ) (min 2 ((20 : ℚ) / 50)) = 1/2 := by
    norm_num [min_def, max_def]
  simp only [hpos, if_true]
  simp only [show ((20 : ℚ) / 50) = 2/5 by norm_num] at hclamp ⊢
  rw [hclamp, pyRound4Q_half, pyRound2Q_apply_neg_half]

lemma pyRound4Q_mem_half_two {x : ℚ} (h0 : 1/2 ≤ x) (h1 : x ≤ 2) :
    1/2 ≤ pyRound4Q x ∧ pyRound4Q x ≤ 2 := by
  have hy0 : ((5000 : ℤ) : ℚ) ≤ x * 10000 := by push_cast; nlinarith
  have hy1 : x * 10000 ≤ ((20000 : ℤ) : ℚ) := by push_cast; nlinarith
  obtain ⟨hl, hr⟩ := round_mem hy0 hy1
  have hlq : ((5000 : ℤ) : ℚ) ≤ ((round (x * 10000) : ℤ) : ℚ) := by exact_mod_cast hl
  have hrq : ((round (x * 10000) : ℤ) : ℚ) ≤ ((20000 : ℤ) : ℚ) := by exact_mod_cast hr
  unfold pyRound4Q
  constructor
  · rw [le_div_iff (by norm_num)]
    push_cast at hlq ⊢
    linarith
  · rw [div_le_iff (by norm_num)]
    push_cast at hrq ⊢
    linarith

/-- **C6.** Every adjustment entry produced by
`calculate_calibration_adjustments` has its `adjustment_factor` in
`[0.5, 2.0]`; and the bucket with expected rate 50% and observed rate
20% yields factor exactly `0.5` (raw ratio `0.4` clamped up). -/
theorem claim_C6_calibration_clamp (data : List (String × BucketStat))
    (name : String) (adj : Adjustment)
    (hmem : (name, adj) ∈ calculate_calibration_adjustments data) :
    (1/2 ≤ adj.adjustment_factor ∧ adj.adjustment_factor ≤ 2) ∧
    (calculate_calibration_adjustments [("0.5-0.7", ⟨50, 20⟩)] =
      [("0.5-0.7", ⟨50, 20, 1/2, -50⟩)]) := by
  constructor
  · unfold calculate_calibration_adjustments at hmem
    rw [List.mem_filterMap] at hmem
    obtain ⟨nb, -, hnb⟩ := hmem
    by_cases hpos : 0 < nb.2.expected_rate
    · simp only [hpos, if_true, Option.some_inj, Prod.mk.injEq] at hnb
      obtain ⟨-, hadj⟩ := hnb
      rw [← hadj]
      exact pyRound4Q_mem_half_two (le_max_left _ _)
        (max_le (by norm_num) (min_le_left _ _))
    · simp [hpos] at hnb
  · exact calibration_concrete

/-- Witness for C6: the factor bounds hold at the concrete single-bucket
input with expected rate 50 and observed rate 20. -/
theorem claim_C6_calibration_clamp_witness :
    (("0.5-0.7", (⟨50, 20, 1/2, -50⟩ : Adjustment)) ∈
      calculate_calibration_adjustments [("0.5-0.7", ⟨50, 20⟩)]) ∧
    ((1/2 ≤ (⟨50, 20, 1/2, -50⟩ : Adjustment).adjustment_factor ∧
        (⟨50, 20, 1/2, -50⟩ : Adjustment).adjustment_factor ≤ 2) ∧
      (calculate_calibration_adjustments [("0.5-0.7", ⟨50, 20⟩)] =
        [("0.5-0.7", ⟨50, 20, 1/2, -50⟩)])) :=
  ⟨by rw [calibration_concrete]; exact List.mem_singleton.mpr rfl,
    claim_C6_calibration_clamp [("0.5-0.7", ⟨50, 20⟩)] "0.5-0.7"
      ⟨50, 20, 1/2, -50⟩
      (by rw [calibration_concrete]; exact List.mem_singleton.mpr rfl)⟩

/-- **C9.** For a base score of exactly `1.0` and any set of
calibration adjustments over the five standard buckets,
`apply_calibration` returns the score unchanged: every membership test
is half-open, so `1.0` falls in no bucket, including `"0.9-1.0"`. -/
theorem claim_C9_calibration_no_bucket_for_one (adjs : List CalBucket)
    (hstd : ∀ b ∈ adjs, (b.lo, b.hi) ∈ standardRanges) :
    apply_calibration 1 adjs = 1 := by
  have hloop : ∀ l : List CalBucket, (∀ b ∈ l, (b.lo, b.hi) ∈ standardRanges) →
      applyCalibrationLoop 1 l = 1 := by
    intro l
    induction l with
    | nil => intro _; rfl
    | cons b rest ih =>
      intro hall
      have hb := hall b (List.mem_cons_self b rest)
      have hhi : b.hi ≤ 1 := by
        simp only [standardRanges, List.mem_cons, List.mem_singleton,
          Prod.mk.injEq, List.not_mem_nil, or_false] at hb
        rcases hb with ⟨_, h⟩ | ⟨_, h⟩ | ⟨_, h⟩ | ⟨_, h⟩ | ⟨_, h⟩ <;>
          rw [h] <;> norm_num
      have hcond : ¬ (b.lo ≤ (1 : ℚ) ∧ (1 : ℚ) < b.hi) := by
        rintro ⟨_, hlt⟩
        exact absurd (lt_of_lt_of_le hlt hhi) (lt_irrefl 1)
      unfold applyCalibrationLoop
      rw [if_neg hcond]
      exact ih (fun x hx => hall x (List.mem_cons_of_mem b hx))
  unfold apply_calibration
  split
  · rfl
  · exact hloop adjs hstd

/-- Witness for C9 at a concrete non-empty adjustment set covering the
`"0.9-1.0"` bucket with factor 2. -/
theorem claim_C9_calibration_no_bucket_for_one_witness :
    (∀ b ∈ [(⟨9/10, 1, 2⟩ : CalBucket)], (b.lo, b.hi) ∈ standardRanges) ∧
    apply_calibration 1 [(⟨9/10, 1, 2⟩ : CalBucket)] = 1 :=
  ⟨by
      intro b hb
      rw [List.mem_singleton] at hb
      subst hb
      norm_num [standardRanges],
    claim_C9_calibration_no_bucket_for_one [⟨9/10, 1, 2⟩] (by
      intro b hb
      rw [List.mem_singleton] at hb
      subst hb
      norm_num [standardRanges])⟩

lemma clamp01_mem (x : ℝ) : 0 ≤ min 1 (max 0 x) ∧ min 1 (max 0 x) ≤ 1 :=
  ⟨le_min zero_le_one (le_max_left 0 x), min_le_left 1 _⟩

lemma strengthAt_nonneg (db : DB) {base : ℝ} (hb : 0 ≤ base) (d : ℤ) :
    0 ≤ strengthAt db base d := by
  unfold strengthAt
  rw [calculate_signal_strength_valid]
  exact decayValue_nonneg hb _ _

lemma sumViolationStrength_nonneg (db : DB) (pid : ℤ) :
    0 ≤ sumViolationStrength db pid := by
  unfold sumViolationStrength
  generalize violationsOf db pid = l
  suffices h : ∀ init : ℝ, 0 ≤ init → 0 ≤ l.foldl
      (fun s v =>
        match v.violation_date with
        | some d => s + strengthAt db 1 d
        | none => s) init from h 0 le_rfl
  induction l with
  | nil => intro init h; exact h
  | cons v rest ih =>
    intro init h
    rw [List.foldl_cons]
    apply ih
    cases v.violation_date with
    | none => exact h
    | some d => exact add_nonneg h (strengthAt_nonneg db zero_le_one d)

lemma sumRequestStrength_nonneg (db : DB) (pid : ℤ) :
    0 ≤ sumRequestStrength db pid := by
  unfold sumRequestStrength
  generalize requestsOf db pid = l
  suffices h : ∀ init : ℝ, 0 ≤ init → 0 ≤ l.foldl
      (fun s r =>
        match r.requested_date with
        | some d => s + strengthAt db 1 d
        | none => s) init from h 0 le_rfl
  induction l with
  | nil => intro init h; exact h
  | cons r rest ih =>
    intro init h
    rw [List.foldl_cons]
    apply ih
    cases r.requested_date with
    | none => exact h
    | some d => exact add_nonneg h (strengthAt_nonneg db zero_le_one d)

lemma violation_score_nonneg (db : DB) (pid : ℤ) : 0 ≤ violation_score db pid := by
  unfold violation_score
  split
  · exact le_min zero_le_one
      (div_nonneg (sumViolationStrength_nonneg db pid) (by norm_num))
  · exact le_rfl

lemma request_score_nonneg (db : DB) (pid : ℤ) : 0 ≤ request_score db pid := by
  unfold request_score
  split
  · exact le_min zero_le_one
      (div_nonneg (sumRequestStrength_nonneg db pid) (by norm_num))
  · exact le_rfl

lemma maintenance_urgency_nonneg (a y : Option ℤ) :
    0 ≤ calculate_maintenance_urgency a y := by
  cases a with
  | none => simp [calculate_maintenance_urgency]
  | some age =>
    cases y with
    | none =>
      simp only [calculate_maintenance_urgency]
      split_ifs <;> norm_num
    | some ys =>
      simp only [calculate_maintenance_urgency]
      split_ifs <;>
        first
          | norm_num
          | exact le_min zero_le_one (by norm_num)

lemma trade_lifecycle_nonneg (a : Option ℤ) (t : String) :
    0 ≤ get_trade_specific_lifecycle_score a t := by
  cases a with
  | none => simp [get_trade_specific_lifecycle_score]
  | some age =>
    simp only [get_trade_specific_lifecycle_score]
    split_ifs <;>
      first
        | exact maintenance_urgency_nonneg (some age) none
        | norm_num

lemma lifecycle_score_nonneg (db : DB) (p : Property) (trade : Option String) :
    0 ≤ lifecycle_score_of db p trade := by
  unfold lifecycle_score_of
  cases propertyAgeOf db p with
  | none => exact le_rfl
  | some a =>
    cases trade with
    | none => exact maintenance_urgency_nonneg (some a) none
    | some t =>
      have h : (0 : ℝ) ≤ (if t ≠ "" then get_trade_specific_lifecycle_score (some a) t
          else calculate_maintenance_urgency (some a) none) := by
        split_ifs
        · exact trade_lifecycle_nonneg (some a) t
        · exact maintenance_urgency_nonneg (some a) none
      exact h

lemma interaction_raw_nonneg (db : DB) (pid : ℤ) :
    0 ≤ calculate_interaction_score db pid := by
  unfold calculate_interaction_score
  cases findProp db pid with
  | none => exact le_rfl
  | some p =>
    have h1 : (0 : ℝ) ≤ (((violationsOf db pid).length +
        (requestsOf db pid).length : ℕ) : ℝ) * 0.1 :=
      mul_nonneg (Nat.cast_nonneg _) (by norm_num)
    refine add_nonneg (add_nonneg (add_nonneg (add_nonneg h1 ?_) ?_) ?_) ?_ <;>
      (split <;> norm_num)

lemma interaction_score_nonneg (db : DB) (pid : ℤ) :
    0 ≤ interaction_score_of db pid :=
  le_min zero_le_one (div_nonneg (interaction_raw_nonneg db pid) (by norm_num))

lemma baseline_score_mem (db : DB) (pid : ℤ) (trade : Option String) :
    0 ≤ (calculate_baseline_score db pid trade).score ∧
      (calculate_baseline_score db pid trade).score ≤ 1 := by
  unfold calculate_baseline_score
  cases findProp db pid with
  | none => norm_num
  | some p => exact pyRound4_mem_unit (clamp01_mem _).1 (clamp01_mem _).2

lemma roofing_score_mem (db : DB) (pid : ℤ) :
    0 ≤ calculate_roofing_score db pid ∧ calculate_roofing_score db pid ≤ 1 := by
  unfold calculate_roofing_score
  cases findProp db pid with
  | none => exact baseline_score_mem db pid (some "roofing")
  | some p => exact pyRound4_mem_unit (clamp01_mem _).1 (clamp01_mem _).2

lemma hvacReturnScore_mem (db : DB) (pid : ℤ) :
    0 ≤ hvacReturnScore db pid ∧ hvacReturnScore db pid ≤ 1 := by
  unfold hvacReturnScore
  exact pyRound4_mem_unit (clamp01_mem _).1 (clamp01_mem _).2

lemma hvac_score_mem (db : DB) (pid : ℤ) :
    (calculate_hvac_score db pid).elim True (fun s => 0 ≤ s ∧ s ≤ 1) := by
  unfold calculate_hvac_score
  cases hf : findProp db pid with
  | none => exact hvacReturnScore_mem db pid
  | some p =>
    by_cases ht : pyTruthyInt p.first_improvement_year = true
    · simp only [hf, if_pos ht]
      exact trivial
    · simp only [hf, if_neg ht]
      exact hvacReturnScore_mem db pid

lemma siding_score_mem (db : DB) (pid : ℤ) :
    0 ≤ calculate_siding_score db pid ∧ calculate_siding_score db pid ≤ 1 := by
  unfold calculate_siding_score
  exact pyRound4_mem_unit (clamp01_mem _).1 (clamp01_mem _).2

lemma electrical_score_mem (db : DB) (pid : ℤ) :
    0 ≤ calculate_electrical_score db pid ∧ calculate_electrical_score db pid ≤ 1 := by
  unfold calculate_electrical_score
  exact pyRound4_mem_unit (clamp01_mem _).1 (clamp01_mem _).2

/-- **C1 (code bug).** Every path of the scoring engine that returns a
score returns one in `[0, 1]`: `score_property`, the baseline scorer,
the roofing/siding/electrical scorers always, and `calculate_hvac_score`
whenever it returns at all.  But the claim fails as stated for trade
`"hvac"`: the function-local `from datetime import datetime` at
`trade_scorers.py:136` shadows the module import, so the age-window
branch at line 130 raises `UnboundLocalError` for every property with a
truthy `first_improvement_year` — evaluated here at the concrete aged
store, where `calculate_hvac_score` (and hence `score_property` with
trade `"hvac"`) returns no score at all. -/
theorem claim_C1_score_bounds_and_hvac_crash (db : DB) (pid : ℤ)
    (trade : Option String) :
    (score_property db pid trade).elim True
      (fun r => 0 ≤ r.score ∧ r.score ≤ 1) ∧
    (0 ≤ (calculate_baseline_score db pid trade).score ∧
      (calculate_baseline_score db pid trade).score ≤ 1) ∧
    (0 ≤ calculate_roofing_score db pid ∧ calculate_roofing_score db pid ≤ 1) ∧
    (calculate_hvac_score db pid).elim True (fun s => 0 ≤ s ∧ s ≤ 1) ∧
    (0 ≤ calculate_siding_score db pid ∧ calculate_siding_score db pid ≤ 1) ∧
    (0 ≤ calculate_electrical_score db pid ∧
      calculate_electrical_score db pid ≤ 1) ∧
    calculate_hvac_score agedDB 1 = none ∧
    score_property agedDB 1 (some "hvac") = none := by
  refine ⟨?_, baseline_score_mem db pid trade, roofing_score_mem db pid,
    hvac_score_mem db pid, siding_score_mem db pid,
    electrical_score_mem db pid, rfl, rfl⟩
  unfold score_property
  cases findProp db pid with
  | none => exact ⟨le_rfl, by norm_num⟩
  | some p =>
    cases trade with
    | none => exact baseline_score_mem db pid none
    | some t =>
      have hs : (if strChars t ≠ [] ∧ toLowerCp (strChars t) ∈ TRADE_OPTIONS then
            if toLowerCp (strChars t) = strChars "roofing" then
              some (⟨calculate_roofing_score db pid, none⟩ : ScoreResult)
            else if toLowerCp (strChars t) = strChars "hvac" then
              (calculate_hvac_score db pid).map
                (fun s => (⟨s, none⟩ : ScoreResult))
            else if toLowerCp (strChars t) = strChars "siding" then
              some ⟨calculate_siding_score db pid, none⟩
            else if toLowerCp (strChars t) = strChars "electrical" then
              some ⟨calculate_electrical_score db pid, none⟩
            else some ⟨(calculate_baseline_score db pid none).score, none⟩
          else some ⟨(calculate_baseline_score db pid none).score, none⟩).elim
          True (fun r => 0 ≤ r.score ∧ r.score ≤ 1) := by
        split_ifs
        · exact roofing_score_mem db pid
        · cases hh : calculate_hvac_score db pid with
          | none => exact trivial
          | some sc =>
            have hb := hvac_score_mem db pid
            rw [hh] at hb
            exact hb
        · exact siding_score_mem db pid
        · exact electrical_score_mem db pid
        · exact baseline_score_mem db pid none
        · exact baseline_score_mem db pid none
      exact hs

lemma clamp_boost_collapse {x : ℝ} (hx : 0 ≤ x) :
    min 1 (max 0 (min 1 (x + 0.1))) = min 1 (max 0 (x + 0.1)) := by
  have h1 : (0 : ℝ) ≤ x + 0.1 := by linarith
  have h2 : (0 : ℝ) ≤ min 1 (x + 0.1) := le_min zero_le_one h1
  rw [max_eq_right h2, max_eq_right h1, ← min_assoc, min_self]

lemma baseline_result_eq (db : DB) (pid : ℤ) (trade : Option String)
    (p : Property) (hfind : findProp db pid = some p) :
    calculate_baseline_score db pid trade =
      ⟨pyRound4 (min 1 (max 0
          (if has_recent_violation db pid || has_recent_request db pid then
            min 1 (((match propertyAgeOf db p with
              | some _ => (0 : ℝ) + violation_score db pid * 0.3 +
                  request_score db pid * 0.25 + lifecycle_score_of db p trade * 0.15
              | none => (0 : ℝ) + violation_score db pid * 0.3 +
                  request_score db pid * 0.25) +
              interaction_score_of db pid * 0.1) + 0.1)
          else ((match propertyAgeOf db p with
              | some _ => (0 : ℝ) + violation_score db pid * 0.3 +
                  request_score db pid * 0.25 + lifecycle_score_of db p trade * 0.15
              | none => (0 : ℝ) + violation_score db pid * 0.3 +
                  request_score db pid * 0.25) +
            interaction_score_of db pid * 0.1)))),
        violation_score db pid, request_score db pid,
        lifecycle_score_of db p trade, interaction_score_of db pid,
        (if has_recent_violation db pid || has_recent_request db pid
          then 0.1 else 0), true⟩ := by
  unfold calculate_baseline_score
  rw [hfind]

lemma lifecycle_score_of_age_none (db : DB) (p : Property) (trade : Option String)
    (h : propertyAgeOf db p = none) : lifecycle_score_of db p trade = 0 := by
  unfold lifecycle_score_of
  rw [h]

/-- **C5.** For every property present in the store, the baseline score
equals the weighted combination
`0.3·violation + 0.25·request + 0.15·lifecycle + 0.10·interaction`
(the lifecycle term contributing 0 when the property age is unknown),
plus a flat `+0.10` recency boost exactly when a recent violation or
request exists, clamped to `[0,1]` and rounded to 4 decimals; and the
result's component breakdown is exactly those component values. -/
theorem claim_C5_baseline_weighted_sum (db : DB) (pid : ℤ)
    (trade : Option String) (p : Property) (hfind : findProp db pid = some p) :
    (calculate_baseline_score db pid trade).score =
      pyRound4 (min 1 (max 0
        (0.3 * violation_score db pid + 0.25 * request_score db pid +
          0.15 * lifecycle_score_of db p trade +
          0.1 * interaction_score_of db pid +
          (if has_recent_violation db pid || has_recent_request db pid
            then 0.1 else 0)))) ∧
    (calculate_baseline_score db pid trade).violation_score =
      violation_score db pid ∧
    (calculate_baseline_score db pid trade).request_score =
      request_score db pid ∧
    (calculate_baseline_score db pid trade).lifecycle_score =
      lifecycle_score_of db p trade ∧
    (calculate_baseline_score db pid trade).interaction_score =
      interaction_score_of db pid ∧
    (calculate_baseline_score db pid trade).recency_boost =
      (if has_recent_violation db pid || has_recent_request db pid
        then 0.1 else 0) := by
  rw [baseline_result_eq db pid trade p hfind]
  refine ⟨?_, rfl, rfl, rfl, rfl, rfl⟩
  have hsum : (match propertyAgeOf db p with
      | some _ => (0 : ℝ) + violation_score db pid * 0.3 +
          request_score db pid * 0.25 + lifecycle_score_of db p trade * 0.15
      | none => (0 : ℝ) + violation_score db pid * 0.3 +
          request_score db pid * 0.25) +
      interaction_score_of db pid * 0.1 =
      0.3 * violation_score db pid + 0.25 * request_score db pid +
        0.15 * lifecycle_score_of db p trade +
        0.1 * interaction_score_of db pid := by
    cases hage : propertyAgeOf db p with
    | some a => ring
    | none =>
      rw [lifecycle_score_of_age_none db p trade hage]
      ring
  have hA : 0 ≤ 0.3 * violation_score db pid + 0.25 * request_score db pid +
      0.15 * lifecycle_score_of db p trade +
      0.1 * interaction_score_of db pid := by
    have h1 := violation_score_nonneg db pid
    have h2 := request_score_nonneg db pid
    have h3 := lifecycle_score_nonneg db p trade
    have h4 := interaction_score_nonneg db pid
    nlinarith
  cases hrec : has_recent_violation db pid || has_recent_request db pid with
  | true =>
    rw [if_pos rfl, if_pos rfl, hsum]
    exact congrArg pyRound4 (clamp_boost_collapse hA)
  | false =>
    rw [if_neg (by simp), if_neg (by simp), hsum, add_zero]

/-- Witness for C5 at the one-property store. -/
theorem claim_C5_baseline_weighted_sum_witness :
    findProp witnessDB 1 = some witnessProp ∧
    ((calculate_baseline_score witnessDB 1 none).score =
      pyRound4 (min 1 (max 0
        (0.3 * violation_score witnessDB 1 + 0.25 * request_score witnessDB 1 +
          0.15 * lifecycle_score_of witnessDB witnessProp none +
          0.1 * interaction_score_of witnessDB 1 +
          (if has_recent_violation witnessDB 1 || has_recent_request witnessDB 1
            then 0.1 else 0)))) ∧
    (calculate_baseline_score witnessDB 1 none).violation_score =
      violation_score witnessDB 1 ∧
    (calculate_baseline_score witnessDB 1 none).request_score =
      request_score witnessDB 1 ∧
    (calculate_baseline_score witnessDB 1 none).lifecycle_score =
      lifecycle_score_of witnessDB witnessProp none ∧
    (calculate_baseline_score witnessDB 1 none).interaction_score =
      interaction_score_of witnessDB 1 ∧
    (calculate_baseline_score witnessDB 1 none).recency_boost =
      (if has_recent_violation witnessDB 1 || has_recent_request witnessDB 1
        then 0.1 else 0)) :=
  ⟨rfl, claim_C5_baseline_weighted_sum witnessDB 1 none witnessProp rfl⟩

/-- **C8.** For every property id absent from the store,
`score_property` returns (rather than raises: the result is `some`, the
embedding's marker for a normal return) a result with score `0.0` and
the error marker `"Property not found"`, regardless of the trade
argument. -/
theorem claim_C8_missing_property (db : DB) (pid : ℤ) (trade : Option String)
    (hfind : findProp db pid = none) :
    score_property db pid trade = some ⟨0, some "Property not found"⟩ := by
  unfold score_property
  rw [hfind]

/-- Witness for C8: the empty store has no property 1. -/
theorem claim_C8_missing_property_witness :
    findProp ⟨[], [], [], [], 0, 0, 0⟩ 1 = none ∧
    score_property ⟨[], [], [], [], 0, 0, 0⟩ 1 (some "roofing") =
      some ⟨0, some "Property not found"⟩ :=
  ⟨rfl, claim_C8_missing_property ⟨[], [], [], [], 0, 0, 0⟩ 1 (some "roofing") rfl⟩

lemma address_similarity_mem (a b : List Nat) :
    0 ≤ address_similarity a b ∧ address_similarity a b ≤ 1 := by
  simp only [address_similarity]
  split_ifs with h1 h2 h3 h4
  · norm_num
  · norm_num
  · norm_num
  · have hpos : 0 < ((splitWsCp (toLowerCp (normalize_address_simple (some a)))).toFinset ∪
        (splitWsCp (toLowerCp (normalize_address_simple (some b)))).toFinset).card :=
      Finset.card_pos.mpr (Finset.nonempty_iff_ne_empty.mpr h4)
    have hle : ((splitWsCp (toLowerCp (normalize_address_simple (some a)))).toFinset ∩
        (splitWsCp (toLowerCp (normalize_address_simple (some b)))).toFinset).card ≤
        ((splitWsCp (toLowerCp (normalize_address_simple (some a)))).toFinset ∪
          (splitWsCp (toLowerCp (normalize_address_simple (some b)))).toFinset).card :=
      Finset.card_le_card
        (le_trans Finset.inter_subset_left Finset.subset_union_left)
    constructor
    · exact div_nonneg (Nat.cast_nonneg _) (Nat.cast_nonneg _)
    · rw [div_le_one (by exact_mod_cast hpos)]
      exact_mod_cast hle
  · norm_num

lemma strategy1Score_mem (na : NormalizedAddress) (p : Property) (sc : ℚ)
    (h : strategy1Score na p = some sc) : 0 ≤ sc ∧ sc ≤ 1 := by
  rw [strategy1Score] at h
  set pn := normalize_address p.situs_address with hpn
  set base := address_similarity na.normalized pn.normalized with hbase
  obtain ⟨hs0, hs1⟩ : 0 ≤ base ∧ base ≤ 1 := by
    rw [hbase]
    exact address_similarity_mem na.normalized pn.normalized
  by_cases h1 : (!pyTruthyStr p.situs_address) = true
  · rw [if_pos h1] at h
    exact absurd h (by simp)
  · rw [if_neg h1] at h
    by_cases h2 : (pyTruthyStr na.street_number &&
        pyTruthyStr pn.street_number) = true
    · rw [if_pos h2] at h
      by_cases h3 : (na.street_number == pn.street_number) = true
      · rw [if_pos h3] at h
        obtain rfl := Option.some.inj h
        exact ⟨le_min (by norm_num) (by linarith), min_le_left _ _⟩
      · rw [if_neg h3] at h
        obtain rfl := Option.some.inj h
        exact ⟨hs0, hs1⟩
    · rw [if_neg h2] at h
      obtain rfl := Option.some.inj h
      exact ⟨hs0, hs1⟩

lemma strategy2Score_mem (na : NormalizedAddress) (lat lon : ℚ) (p : Property)
    (sc : ℚ) (h : strategy2Score na lat lon p = some sc) : 0 ≤ sc ∧ sc ≤ 1 := by
  rw [strategy2Score] at h
  set pn := normalize_address p.situs_address with hpn
  set base := address_similarity na.normalized pn.normalized with hbase
  obtain ⟨hs0, hs1⟩ : 0 ≤ base ∧ base ≤ 1 := by
    rw [hbase]
    exact address_similarity_mem na.normalized pn.normalized
  by_cases h1 : (!pyTruthyStr p.situs_address) = true
  · rw [if_pos h1] at h
    exact absurd h (by simp)
  · rw [if_neg h1] at h
    by_cases h2 : (pyTruthyQ p.centroid_y && pyTruthyQ p.centroid_x) = true
    · rw [if_pos h2] at h
      obtain rfl := Option.some.inj h
      have hx : 0 ≤ (|p.centroid_y.getD 0 - lat| + |p.centroid_x.getD 0 - lon|) /
          (1/1000 + 1/1000 : ℚ) :=
        div_nonneg (add_nonneg (abs_nonneg _) (abs_nonneg _)) (by norm_num)
      have hm0 : (0 : ℚ) ≤ min 1 ((|p.centroid_y.getD 0 - lat| +
          |p.centroid_x.getD 0 - lon|) / (1/1000 + 1/1000)) :=
        le_min zero_le_one hx
      have hm1 : min 1 ((|p.centroid_y.getD 0 - lat| +
          |p.centroid_x.getD 0 - lon|) / (1/1000 + 1/1000)) ≤ 1 := min_le_left _ _
      constructor <;> nlinarith
    · rw [if_neg h2] at h
      obtain rfl := Option.some.inj h
      exact ⟨hs0, hs1⟩

lemma strategy3Score_mem (na : NormalizedAddress) (p : Property) (sc : ℚ)
    (h : strategy3Score na p = some sc) : 0 ≤ sc ∧ sc ≤ 1 := by
  rw [strategy3Score] at h
  by_cases h1 : (!pyTruthyStr p.situs_address) = true
  · rw [if_pos h1] at h
    exact absurd h (by simp)
  · rw [if_neg h1] at h
    obtain rfl := Option.some.inj h
    exact address_similarity_mem na.normalized (p.situs_address.getD [])

lemma bestFold_cons (scoreOf : Property → Option ℚ) (p : Property)
    (rest : List Property) (init : Option Property × ℚ) :
    bestFold (p :: rest) scoreOf init =
      bestFold rest scoreOf
        (match scoreOf p with
          | none => init
          | some sc => if init.2 < sc then (some p, sc) else init) := rfl

lemma bestFold_mem (scoreOf : Property → Option ℚ)
    (hscore : ∀ p sc, scoreOf p = some sc → 0 ≤ sc ∧ sc ≤ 1)
    (cand : List Property) (init : Option Property × ℚ)
    (h0 : 0 ≤ init.2) (h1 : init.2 ≤ 1) :
    0 ≤ (bestFold cand scoreOf init).2 ∧ (bestFold cand scoreOf init).2 ≤ 1 := by
  induction cand generalizing init with
  | nil => exact ⟨h0, h1⟩
  | cons p rest ih =>
    cases hsp : scoreOf p with
    | none =>
      have hstep : bestFold (p :: rest) scoreOf init = bestFold rest scoreOf init := by
        rw [bestFold_cons, hsp]
      rw [hstep]
      exact ih init h0 h1
    | some sc =>
      obtain ⟨hc0, hc1⟩ := hscore p sc hsp
      by_cases hlt : init.2 < sc
      · have hstep : bestFold (p :: rest) scoreOf init =
            bestFold rest scoreOf (some p, sc) := by
          rw [bestFold_cons, hsp]
          show bestFold rest scoreOf
            (if init.2 < sc then (some p, sc) else init) = _
          rw [if_pos hlt]
        rw [hstep]
        exact ih (some p, sc) hc0 hc1
      · have hstep : bestFold (p :: rest) scoreOf init =
            bestFold rest scoreOf init := by
          rw [bestFold_cons, hsp]
          show bestFold rest scoreOf
            (if init.2 < sc then (some p, sc) else init) = _
          rw [if_neg hlt]
        rw [hstep]
        exact ih init h0 h1

lemma cascade1_mem (db : DB) (na : NormalizedAddress)
    (zipToMatch : Option (List Nat)) :
    0 ≤ (cascade1 db na zipToMatch).2 ∧ (cascade1 db na zipToMatch).2 ≤ 1 := by
  unfold cascade1
  cases zipToMatch with
  | none => exact ⟨le_rfl, by norm_num⟩
  | some z =>
    exact bestFold_mem (strategy1Score na) (strategy1Score_mem na)
      (zipCandidates db z) (none, 0) le_rfl (by norm_num)

lemma cascade2_mem (db : DB) (na : NormalizedAddress)
    (zipToMatch : Option (List Nat)) (latitude longitude : Option ℚ) :
    0 ≤ (cascade2 db na zipToMatch latitude longitude).2 ∧
      (cascade2 db na zipToMatch latitude longitude).2 ≤ 1 := by
  obtain ⟨h0, h1⟩ := cascade1_mem db na zipToMatch
  simp only [cascade2]
  split_ifs with hlt htr
  · exact bestFold_mem _
      (strategy2Score_mem na (latitude.getD 0) (longitude.getD 0))
      (coordCandidates db (latitude.getD 0) (longitude.getD 0))
      (cascade1 db na zipToMatch) h0 h1
  · exact ⟨h0, h1⟩
  · exact ⟨h0, h1⟩

lemma matchCascade_mem (db : DB) (na : NormalizedAddress)
    (zipToMatch : Option (List Nat)) (latitude longitude : Option ℚ) :
    0 ≤ (matchCascade db na zipToMatch latitude longitude).2 ∧
      (matchCascade db na zipToMatch latitude longitude).2 ≤ 1 := by
  obtain ⟨h0, h1⟩ := cascade2_mem db na zipToMatch latitude longitude
  simp only [matchCascade]
  split_ifs with hlt
  · cases zipToMatch with
    | none => exact ⟨h0, h1⟩
    | some z =>
      exact bestFold_mem (strategy3Score na) (strategy3Score_mem na)
        (zipCandidates db z) (cascade2 db na (some z) latitude longitude) h0 h1
  · exact ⟨h0, h1⟩

/-- **C2.** `match_address_to_property` never returns a non-`None`
property with confidence below `MATCH_THRESHOLD = 0.7`, and the
reported confidence always lies in `[0, 1]` (so a `None` result may
carry any diagnostic confidence in `[0, 1]`). -/
theorem claim_C2_matcher_threshold (db : DB) (address zip_code : Option (List Nat))
    (latitude longitude : Option ℚ) :
    ((match_address_to_property db address zip_code latitude longitude).1 = none ∨
      MATCH_THRESHOLD ≤
        (match_address_to_property db address zip_code latitude longitude).2) ∧
    0 ≤ (match_address_to_property db address zip_code latitude longitude).2 ∧
    (match_address_to_property db address zip_code latitude longitude).2 ≤ 1 := by
  obtain ⟨h0, h1⟩ := matchCascade_mem db (normalize_address address)
    (zipToMatchOf (normalize_address address) zip_code) latitude longitude
  simp only [match_address_to_property]
  split_ifs with hf he ht
  · exact ⟨Or.inl rfl, le_rfl, by norm_num⟩
  · exact ⟨Or.inl rfl, le_rfl, by norm_num⟩
  · exact ⟨Or.inr ht, h0, h1⟩
  · exact ⟨Or.inl rfl, h0, h1⟩

/-- **C10.** A `None` or empty address makes
`match_address_to_property` return `(None, 0.0)` immediately, whatever
ZIP code and coordinates are supplied: the coordinate strategy is only
reachable once the address normalizes to a non-empty string. -/
theorem claim_C10_no_address_no_match (db : DB) (zip_code : Option (List Nat))
    (latitude longitude : Option ℚ) :
    match_address_to_property db none zip_code latitude longitude = (none, 0) ∧
    match_address_to_property db (some (strChars "")) zip_code latitude longitude =
      (none, 0) :=
  ⟨rfl, rfl⟩

lemma similarity_knap_jaccard :
    address_similarity (strChars "4507 KNAP HOLW, AUSTIN, TX 78731")
      (strChars "4507 Knap Hollow") = 2/7 := by
  simp only [address_similarity]
  rw [if_neg (by decide), if_neg (by decide), if_neg (by decide),
    if_pos (by decide)]
  rw [show ((splitWsCp (toLowerCp (normalize_address_simple
        (some (strChars "4507 KNAP HOLW, AUSTIN, TX 78731"))))).toFinset ∩
      (splitWsCp (toLowerCp (normalize_address_simple
        (some (strChars "4507 Knap Hollow"))))).toFinset).card = 2 from by decide,
    show ((splitWsCp (toLowerCp (normalize_address_simple
        (some (strChars "4507 KNAP HOLW, AUSTIN, TX 78731"))))).toFinset ∪
      (splitWsCp (toLowerCp (normalize_address_simple
        (some (strChars "4507 Knap Hollow"))))).toFinset).card = 7 from by decide]
  norm_num

/-- Counterexample for **C7** as stated: the normalization components
are as claimed, but the address similarity between the raw input
`"4507 KNAP HOLW, AUSTIN, TX 78731"` and `"4507 Knap Hollow"` is
`2/7 ≈ 0.286`, which does not exceed `0.5` — so the claim's
conjunction is false. -/
theorem claim_C7_counterexample :
    ¬ ((normalize_address (some (strChars "4507 KNAP HOLW, AUSTIN, TX 78731"))).street_number =
          some (strChars "4507") ∧
       (normalize_address (some (strChars "4507 KNAP HOLW, AUSTIN, TX 78731"))).zip_code =
          some (strChars "78731") ∧
       (normalize_address (some (strChars "4507 KNAP HOLW, AUSTIN, TX 78731"))).state =
          some (strChars "TX") ∧
       1/2 < address_similarity (strChars "4507 KNAP HOLW, AUSTIN, TX 78731")
          (strChars "4507 Knap Hollow")) := by
  intro h
  have hs := h.2.2.2
  rw [similarity_knap_jaccard] at hs
  norm_num at hs

/-- **C7 amended.** The input `"4507 KNAP HOLW, AUSTIN, TX 78731"`
normalizes to street number `"4507"`, ZIP `"78731"` and state `"TX"`,
and its address similarity with `"4507 Knap Hollow"` equals exactly
`2/7 ≈ 0.286` (shared tokens `"4507"`/`"knap"` out of seven distinct
tokens) — greater than `1/4` but not greater than `0.5`. -/
theorem claim_C7_amended_normalization :
    (normalize_address (some (strChars "4507 KNAP HOLW, AUSTIN, TX 78731"))).street_number =
        some (strChars "4507") ∧
    (normalize_address (some (strChars "4507 KNAP HOLW, AUSTIN, TX 78731"))).zip_code =
        some (strChars "78731") ∧
    (normalize_address (some (strChars "4507 KNAP HOLW, AUSTIN, TX 78731"))).state =
        some (strChars "TX") ∧
    address_similarity (strChars "4507 KNAP HOLW, AUSTIN, TX 78731")
        (strChars "4507 Knap Hollow") = 2/7 ∧
    1/4 < address_similarity (strChars "4507 KNAP HOLW, AUSTIN, TX 78731")
        (strChars "4507 Knap Hollow") := by
  refine ⟨by decide, by decide, by decide, similarity_knap_jaccard, ?_⟩
  rw [similarity_knap_jaccard]
  norm_num

end LeadGen
